import Mathlib

/-
Shallow embedding of src/libcolord/cd-device.c (colord client device proxy).

The C file implements a client-side proxy (CdDevice) for a remote colord
device object reached over D-Bus.  We embed its state (CdDevicePrivate),
its transport dependency (GDBusProxy calls), and the operations the
specification talks about:

  * cd_device_set_object_path_sync    (bind + initial property hydration)
  * cd_device_set_profiles_array_from_variant
  * cd_device_dbus_properties_changed (properties-changed handler)
  * cd_device_dbus_signal_cb          (signal handler, "Changed" re-emit)
  * cd_device_set_model_sync / cd_device_set_kind_sync
  * cd_device_add_profile_sync / cd_device_make_profile_default_sync
  * cd_device_get_profile_for_qualifier_sync

The D-Bus transport is modelled as a record of pure functions (connection
success, cached properties, synchronous method calls, profile-path
resolution).  GVariant values are modelled by a small inductive.
C strings (gchar*) that may be NULL are modelled as Option String.
The guint64 field `created` is modelled as Nat (no 64-bit arithmetic is
performed on it anywhere in the file, so no truncation point arises).

cd-profile.c is not part of the provided sources; profile objects and
cd_profile_set_object_path_sync are modelled from the spec (see their
doc comments).
-/

/-- GVariant values as used by cd-device.c: strings ("s"), unsigned 64-bit
integers ("t"), single object paths ("o") and arrays of object paths ("ao"). -/
inductive GVariant where
  | str (s : String)
  | u64 (n : Nat)
  | objPath (p : String)
  | objPaths (ps : List String)
deriving DecidableEq

/-- Models g_variant_get_string / g_variant_dup_string on a variant assumed
to hold a string (the C code never checks the variant type). -/
def GVariant.getString : GVariant → String
  | .str s => s
  | _ => ""

/-- Models g_variant_get_uint64 on a variant assumed to hold a "t". -/
def GVariant.getUInt64 : GVariant → Nat
  | .u64 n => n
  | _ => 0

/-- Models g_variant_get with format "(o)" on a method reply. -/
def GVariant.getObjPath : GVariant → String
  | .objPath p => p
  | _ => ""

/-- Models iterating an "ao" variant with g_variant_iter_init /
g_variant_get_child, collecting the object paths. -/
def GVariant.getObjPaths : GVariant → List String
  | .objPaths ps => ps
  | _ => []

/-- Modelled from the spec: the CdDeviceKind enumeration of cd-device.h is
not among the provided sources.  The spec only requires an enumerated
category with an Unknown sentinel that is also the zero-initialised
default (CD_DEVICE_KIND_UNKNOWN = 0). -/
inductive CdDeviceKind where
  | unknown
  | display
  | scanner
  | printer
  | camera
deriving DecidableEq

/-- Modelled from the spec: cd_device_kind_from_string (declared in
cd-device.h, body not in the provided sources).  Parses an enumerated
value from a string; an unknown string maps to the Unknown sentinel,
never an error. -/
def cd_device_kind_from_string (kind : String) : CdDeviceKind :=
  if kind = "display" then .display
  else if kind = "scanner" then .scanner
  else if kind = "printer" then .printer
  else if kind = "camera" then .camera
  else .unknown

/-- Modelled from the spec: cd_device_kind_to_string, inverse rendering of
the enumerated kind used by cd_device_set_kind_sync. -/
def cd_device_kind_to_string : CdDeviceKind → String
  | .unknown => "unknown"
  | .display => "display"
  | .scanner => "scanner"
  | .printer => "printer"
  | .camera => "camera"

/-- Modelled from the spec: a CdProfile (cd-profile.c is not among the
provided sources) is an opaque handle identified by a remote object path,
with an identifier readable via cd_profile_get_id.  Freshly created
profiles have no path and no id. -/
structure CdProfile where
  object_path : Option String
  id : Option String
deriving DecidableEq

/-- Models cd_profile_new: a fresh, unbound profile reference. -/
def cd_profile_new : CdProfile := { object_path := none, id := none }

/-- The D-Bus transport as seen by cd-device.c, modelled as pure functions:
whether g_dbus_proxy_new_for_bus_sync succeeds, the cached-property table
(g_dbus_proxy_get_cached_property: absent = none), synchronous method
calls (g_dbus_proxy_call_sync: none = error reply), and whether binding
a profile to a given object path succeeds. -/
structure Transport where
  connectOk : Bool
  cachedProp : String → Option GVariant
  callSync : String → List GVariant → Option GVariant
  profileResolve : String → Bool

/-- Device snapshot state: the fields of CdDevicePrivate.  `proxy` models
whether the GDBusProxy handle is non-NULL; `connectedSignals` models
whether the two g_signal_connect registrations on the proxy (done only on
a fully successful bind) have been made. -/
structure CdDevice where
  proxy : Bool
  object_path : Option String
  id : Option String
  model : Option String
  created : Nat
  profiles : List CdProfile
  kind : CdDeviceKind
  connectedSignals : Bool
deriving DecidableEq

/-- Models cd_device_init / cd_device_new: GObject instance data is
zero-initialised (NULL pointers, 0 created, kind 0 = unknown) and
cd_device_init allocates an empty profiles array. -/
def cd_device_new : CdDevice :=
  { proxy := false
  , object_path := none
  , id := none
  , model := none
  , created := 0
  , profiles := []
  , kind := .unknown
  , connectedSignals := false }

/-- Failure outcomes of the operations in cd-device.c.  The C code reports
every g_set_error site with the single code CD_DEVICE_ERROR_FAILED; the
constructors here distinguish the failure sites (which the spec names
ConnectionError, AlreadyBoundError, RemoteCallError, ResolutionError).
`alreadyBound`, `notBound` and `nullQualifier` correspond to
g_return_val_if_fail guards, which return the failure value without
setting a GError. -/
inductive CdDeviceError where
  | alreadyBound
  | notBound
  | nullQualifier
  | connectFailed
  | profileResolveFailed
  | remoteCallFailed (method : String)
deriving DecidableEq

/-- Modelled from the spec: cd_profile_set_object_path_sync (cd-profile.c is
not among the provided sources).  Resolving an object path into a profile
reference is itself a remote bind that can fail independently; on success
the profile is identified by that remote path.  `none` models FALSE with
the error set. -/
def cd_profile_set_object_path_sync (t : Transport) (profile : CdProfile)
    (object_path : String) : Option CdProfile :=
  if t.profileResolve object_path then
    some { profile with object_path := some object_path }
  else
    none

/-- Models cd_profile_get_object_path (NULL rendered as ""). -/
def cd_profile_get_object_path (profile : CdProfile) : String :=
  match profile.object_path with
  | some p => p
  | none => ""

/-- Models cd_profile_get_id (NULL rendered as ""). -/
def cd_profile_get_id (profile : CdProfile) : String :=
  match profile.id with
  | some s => s
  | none => ""

/-- The loop of cd_device_set_profiles_array_from_variant: for each object
path, create a fresh profile (cd_profile_new) and bind it; on the first
failure, stop and return FALSE, leaving the accumulated array (the
profiles resolved so far) in place; otherwise append
(g_ptr_array_add) and continue. -/
def resolveProfilesLoop (t : Transport) (acc : List CdProfile) :
    List String → List CdProfile × Bool
  | [] => (acc, true)
  | object_path_tmp :: rest =>
    match cd_profile_set_object_path_sync t cd_profile_new object_path_tmp with
    | none => (acc, false)
    | some profile_tmp => resolveProfilesLoop t (acc ++ [profile_tmp]) rest

/-- Models cd_device_set_profiles_array_from_variant: first truncates the
existing profiles array to size 0 (g_ptr_array_set_size (profiles, 0)),
then iterates the object paths of the variant, resolving each into a fresh
profile.  Returns the mutated device and the gboolean result; on failure
the device keeps the partially rebuilt array. -/
def cd_device_set_profiles_array_from_variant (t : Transport) (device : CdDevice)
    (profiles : GVariant) : CdDevice × Bool :=
  let r := resolveProfilesLoop t [] profiles.getObjPaths
  ({ device with profiles := r.1 }, r.2)

/-- One iteration of the loop body of cd_device_dbus_properties_changed:
dispatch on the property name.  "Model" replaces the model string, "Kind"
parses the kind, "Profiles" re-resolves the whole profile array (return
value and error ignored: error out-parameter is NULL), anything else only
logs a warning. -/
def cd_device_apply_changed_property (t : Transport) (device : CdDevice)
    (property_name : String) (property_value : GVariant) : CdDevice :=
  if property_name = "Model" then
    { device with model := some property_value.getString }
  else if property_name = "Kind" then
    { device with kind := cd_device_kind_from_string property_value.getString }
  else if property_name = "Profiles" then
    (cd_device_set_profiles_array_from_variant t device property_value).1
  else
    device

/-- Models cd_device_dbus_properties_changed: iterate the changed-properties
dictionary ({sv} entries, in order) applying each recognised change. -/
def cd_device_dbus_properties_changed (t : Transport) (device : CdDevice)
    (changed_properties : List (String × GVariant)) : CdDevice :=
  changed_properties.foldl
    (fun dev pv => cd_device_apply_changed_property t dev pv.1 pv.2) device

/-- An observer-visible emission of the "changed" GObject signal of the proxy
(g_signal_emit (device, signals[SIGNAL_CHANGED], 0)); it carries no
payload. -/
inductive CdSignalEmission where
  | changed
deriving DecidableEq

/-- Models cd_device_dbus_signal_cb: a "Changed" D-Bus signal re-emits
exactly one payload-free "changed" GObject signal; any other signal name
only logs a warning and emits nothing. -/
def cd_device_dbus_signal_cb (signal_name : String) : List CdSignalEmission :=
  if signal_name = "Changed" then [.changed] else []

/-- A sequence of incoming D-Bus signals processed in arrival order by
cd_device_dbus_signal_cb; the emissions are concatenated in that order
(GDBus dispatches the callbacks one at a time on one loop). -/
def processDbusSignals (signal_names : List String) : List CdSignalEmission :=
  (signal_names.map cd_device_dbus_signal_cb).flatten

/-- Delivery of a "g-properties-changed" notification to a device: GDBus
invokes cd_device_dbus_properties_changed only if the handler was
registered with g_signal_connect (which bind does only on full success). -/
def deliverPropertiesChanged (t : Transport) (device : CdDevice)
    (changed_properties : List (String × GVariant)) : CdDevice :=
  if device.connectedSignals then
    cd_device_dbus_properties_changed t device changed_properties
  else
    device

/-- Delivery of a "g-signal" D-Bus signal to a device: the emissions reach
observers only if cd_device_dbus_signal_cb was registered on the proxy. -/
def deliverDbusSignal (device : CdDevice) (signal_name : String) :
    List CdSignalEmission :=
  if device.connectedSignals then cd_device_dbus_signal_cb signal_name else []

/-- The straight-line block of cd_device_set_object_path_sync between the
successful proxy connection and the Profiles read: save the object path
(g_strdup), then the four guarded cached-property reads — DeviceId, Kind,
Model, Created — each applied to the snapshot only when the cached value
is non-NULL. -/
def cd_device_read_cached_scalars (t : Transport) (device : CdDevice)
    (object_path : String) : CdDevice :=
  let d1 := { device with object_path := some object_path }
  let d2 := match t.cachedProp "DeviceId" with
    | some id => { d1 with id := some id.getString }
    | none => d1
  let d3 := match t.cachedProp "Kind" with
    | some kind => { d2 with kind := cd_device_kind_from_string kind.getString }
    | none => d2
  let d4 := match t.cachedProp "Model" with
    | some model => { d3 with model := some model.getString }
    | none => d3
  match t.cachedProp "Created" with
  | some created => { d4 with created := created.getUInt64 }
  | none => d4

/-- Models cd_device_set_object_path_sync (bind).  Step by step as in the C:
the g_return_val_if_fail (proxy == NULL) guard; the proxy connection
(failure sets ConnectionError and leaves everything else untouched);
saving the object path; the four guarded cached-property reads (each
applied only when the property is non-NULL); the unguarded Profiles read,
handed straight to cd_device_set_profiles_array_from_variant — when the
cached "Profiles" property is absent the C passes NULL to
g_variant_iter_init, undefined behaviour modelled as the outer `none`
(crash); finally, only on success, the two g_signal_connect
registrations.  `some (d, r)` is a normal return with final state d and
gboolean/GError result r. -/
def cd_device_set_object_path_sync (t : Transport) (device : CdDevice)
    (object_path : String) : Option (CdDevice × Except CdDeviceError Unit) :=
  if device.proxy then
    some (device, .error .alreadyBound)
  else if t.connectOk = false then
    some (device, .error .connectFailed)
  else
    let d5 := cd_device_read_cached_scalars t { device with proxy := true }
                object_path
    match t.cachedProp "Profiles" with
    | none => none
    | some profiles =>
      let r := cd_device_set_profiles_array_from_variant t d5 profiles
      if r.2 then
        some ({ r.1 with connectedSignals := true }, .ok ())
      else
        some (r.1, .error .profileResolveFailed)

/-- Models cd_device_set_property_sync: a synchronous "SetProperty" remote
call; a NULL reply becomes a FALSE return with the error set.  The device
state is returned unchanged in every branch, as the C never assigns to
priv here. -/
def cd_device_set_property_sync (t : Transport) (device : CdDevice)
    (name : String) (value : String) : CdDevice × Except CdDeviceError Unit :=
  match t.callSync "SetProperty" [.str name, .str value] with
  | none => (device, .error (.remoteCallFailed "SetProperty"))
  | some _ => (device, .ok ())

/-- Models cd_device_set_model_sync: g_return_val_if_fail (proxy != NULL)
then the SetProperty helper with name "Model". -/
def cd_device_set_model_sync (t : Transport) (device : CdDevice)
    (value : String) : CdDevice × Except CdDeviceError Unit :=
  if device.proxy = false then (device, .error .notBound)
  else cd_device_set_property_sync t device "Model" value

/-- Models cd_device_set_kind_sync: g_return_val_if_fail (proxy != NULL)
then the SetProperty helper with name "Kind" and the stringified kind. -/
def cd_device_set_kind_sync (t : Transport) (device : CdDevice)
    (kind : CdDeviceKind) : CdDevice × Except CdDeviceError Unit :=
  if device.proxy = false then (device, .error .notBound)
  else cd_device_set_property_sync t device "Kind" (cd_device_kind_to_string kind)

/-- Models cd_device_add_profile_sync: a synchronous "AddProfile" remote call
with the object path of the profile; the device state is never assigned to. -/
def cd_device_add_profile_sync (t : Transport) (device : CdDevice)
    (profile : CdProfile) : CdDevice × Except CdDeviceError Unit :=
  if device.proxy = false then (device, .error .notBound)
  else
    match t.callSync "AddProfile" [.objPath (cd_profile_get_object_path profile)] with
    | none => (device, .error (.remoteCallFailed "AddProfile"))
    | some _ => (device, .ok ())

/-- Models cd_device_make_profile_default_sync: a synchronous
"MakeProfileDefault" remote call with the id of the profile; the device state
is never assigned to. -/
def cd_device_make_profile_default_sync (t : Transport) (device : CdDevice)
    (profile : CdProfile) : CdDevice × Except CdDeviceError Unit :=
  if device.proxy = false then (device, .error .notBound)
  else
    match t.callSync "MakeProfileDefault" [.str (cd_profile_get_id profile)] with
    | none => (device, .error (.remoteCallFailed "MakeProfileDefault"))
    | some _ => (device, .ok ())

/-- Models cd_device_get_profile_for_qualifier_sync.  The qualifier (a
gchar*) is Option String to capture NULL.  Guards in source order:
qualifier != NULL, then proxy != NULL — both return NULL (the error) with
no remote call issued.  Past the guards a synchronous
"GetProfileForQualifier" call is issued (recorded in the second
component, the list of remote calls this invocation performed); its "(o)"
reply is resolved into a fresh profile reference via
cd_profile_set_object_path_sync, independent of the cached profile list.
The device state is never assigned to. -/
def cd_device_get_profile_for_qualifier_sync (t : Transport) (device : CdDevice)
    (qualifier : Option String) :
    Except CdDeviceError CdProfile × List (String × List GVariant) :=
  match qualifier with
  | none => (.error .nullQualifier, [])
  | some q =>
    if device.proxy = false then (.error .notBound, [])
    else
      match t.callSync "GetProfileForQualifier" [.str q] with
      | none => (.error (.remoteCallFailed "GetProfileForQualifier"),
                 [("GetProfileForQualifier", [.str q])])
      | some response =>
        match cd_profile_set_object_path_sync t cd_profile_new
                response.getObjPath with
        | none => (.error .profileResolveFailed,
                   [("GetProfileForQualifier", [.str q])])
        | some profile => (.ok profile, [("GetProfileForQualifier", [.str q])])

/-- The profile reference produced by resolving object path p from a fresh
cd_profile_new inside the profile-list rebuild. -/
def resolvedProfile (p : String) : CdProfile :=
  { object_path := some p, id := none }

/-- A snapshot that is already bound (proxy non-NULL, listeners registered),
holding one resolved profile, as left by a previous successful bind. -/
def dBound : CdDevice :=
  { proxy := true
  , object_path := some "/org/freedesktop/ColorManager/devices/dev0"
  , id := some "dev0"
  , model := some "M"
  , created := 5
  , profiles := [resolvedProfile "/a"]
  , kind := .display
  , connectedSignals := true }

/-- A mock transport supplying a full initial property set with two
resolvable profile paths. -/
def tFull : Transport :=
  { connectOk := true
  , cachedProp := fun name =>
      if name = "DeviceId" then some (.str "dev0")
      else if name = "Kind" then some (.str "display")
      else if name = "Model" then some (.str "Dream Color")
      else if name = "Created" then some (.u64 1295983997)
      else if name = "Profiles" then some (.objPaths ["/p1", "/p2"])
      else none
  , callSync := fun _ _ => none
  , profileResolve := fun _ => true }

/-- A mock transport whose initial property set has only Profiles (the four
scalar attributes are reported absent). -/
def tAbsent : Transport :=
  { connectOk := true
  , cachedProp := fun name =>
      if name = "Profiles" then some (.objPaths []) else none
  , callSync := fun _ _ => none
  , profileResolve := fun _ => true }

/-- A mock transport reporting every cached property absent, including
Profiles. -/
def tNothing : Transport :=
  { connectOk := true
  , cachedProp := fun _ => none
  , callSync := fun _ _ => none
  , profileResolve := fun _ => true }

/-- A mock transport where profile path "/p2" fails to resolve but "/p1"
resolves; its initial Profiles list is ["/p2"], so an initial bind fails
at profile resolution. -/
def tBadProfile : Transport :=
  { connectOk := true
  , cachedProp := fun name =>
      if name = "Profiles" then some (.objPaths ["/p2"]) else none
  , callSync := fun _ _ => none
  , profileResolve := fun p => p = "/p1" }

/-- A mock transport answering GetProfileForQualifier with /profile/1, which
resolves. -/
def tQual : Transport :=
  { connectOk := true
  , cachedProp := fun _ => none
  , callSync := fun method _ =>
      if method = "GetProfileForQualifier" then some (.objPath "/profile/1")
      else none
  , profileResolve := fun p => p = "/profile/1" }


/-- The snapshot state left behind when binding cd_device_new through
tBadProfile at path /dev1: proxy connected, object path saved, scalar
fields at their defaults, profiles array truncated, listeners never
registered. -/
def dFailedBind : CdDevice :=
  { proxy := true
  , object_path := some "/dev1"
  , id := none
  , model := none
  , created := 0
  , profiles := []
  , kind := .unknown
  , connectedSignals := false }

/-- When every path in the list resolves, the rebuild loop appends one fresh
resolved profile per path, in order, and returns TRUE. -/
theorem resolveProfilesLoop_ok (t : Transport) (paths : List String)
    (h : ∀ p ∈ paths, t.profileResolve p = true) (acc : List CdProfile) :
    resolveProfilesLoop t acc paths =
      (acc ++ paths.map resolvedProfile, true) := by
  induction paths generalizing acc with
  | nil => simp [resolveProfilesLoop]
  | cons p rest ih =>
    have hp : t.profileResolve p = true := h p (by simp)
    have hrest : ∀ q ∈ rest, t.profileResolve q = true := by
      intro q hq
      exact h q (by simp [hq])
    simp [resolveProfilesLoop, cd_profile_set_object_path_sync, hp,
      ih hrest, cd_profile_new, resolvedProfile]

/-- When every path of the first segment resolves and the next path fails to
resolve, the rebuild loop stops at the failure, returning FALSE with the
accumulated array holding exactly the resolved segment. -/
theorem resolveProfilesLoop_fail (t : Transport) (good : List String)
    (bad : String) (rest : List String)
    (hg : ∀ p ∈ good, t.profileResolve p = true)
    (hb : t.profileResolve bad = false) (acc : List CdProfile) :
    resolveProfilesLoop t acc (good ++ bad :: rest) =
      (acc ++ good.map resolvedProfile, false) := by
  induction good generalizing acc with
  | nil => simp [resolveProfilesLoop, cd_profile_set_object_path_sync, hb]
  | cons p tail ih =>
    have hp : t.profileResolve p = true := hg p (by simp)
    have htail : ∀ q ∈ tail, t.profileResolve q = true := by
      intro q hq
      exact hg q (by simp [hq])
    simp [resolveProfilesLoop, cd_profile_set_object_path_sync, hp,
      ih htail, cd_profile_new, resolvedProfile]

/-- The scalar-hydration block touches only object_path, id, kind, model and
created: proxy, profiles and connectedSignals pass through unchanged, and
the object path is saved. -/
theorem read_cached_scalars_frame (t : Transport) (device : CdDevice)
    (object_path : String) :
    (cd_device_read_cached_scalars t device object_path).proxy =
      device.proxy ∧
    (cd_device_read_cached_scalars t device object_path).profiles =
      device.profiles ∧
    (cd_device_read_cached_scalars t device object_path).connectedSignals =
      device.connectedSignals ∧
    (cd_device_read_cached_scalars t device object_path).object_path =
      some object_path := by
  simp only [cd_device_read_cached_scalars]
  cases t.cachedProp "DeviceId" <;> cases t.cachedProp "Kind" <;>
    cases t.cachedProp "Model" <;> cases t.cachedProp "Created" <;>
    exact ⟨rfl, rfl, rfl, rfl⟩

/-- A bind that returns FALSE with an error never reaches the two
g_signal_connect registrations, so the listener flag is exactly what it
was before the call. -/
theorem bind_error_keeps_listeners_off (t : Transport) (device : CdDevice)
    (object_path : String) (d2 : CdDevice) (e : CdDeviceError)
    (h : cd_device_set_object_path_sync t device object_path =
          some (d2, .error e)) :
    d2.connectedSignals = device.connectedSignals := by
  by_cases hp : device.proxy = true
  · simp only [cd_device_set_object_path_sync, hp, if_true,
      Option.some.injEq, Prod.mk.injEq] at h
    rw [← h.1]
  · by_cases hc : t.connectOk = true
    · rcases hprof : t.cachedProp "Profiles" with _ | pv
      · simp [cd_device_set_object_path_sync, hp, hc, hprof] at h
      · rcases hr : (cd_device_set_profiles_array_from_variant t
            (cd_device_read_cached_scalars t { device with proxy := true }
              object_path) pv).2 with _ | _
        · simp [cd_device_set_object_path_sync, hp, hc, hprof, hr] at h
          rw [← h.1]
          simp [cd_device_set_profiles_array_from_variant,
            (read_cached_scalars_frame t { device with proxy := true }
              object_path).2.2.1]
        · simp [cd_device_set_object_path_sync, hp, hc, hprof, hr] at h
    · simp [cd_device_set_object_path_sync, hp, hc] at h
      rw [← h.1]

/-- C2: on a snapshot whose proxy is already set, a second
cd_device_set_object_path_sync fails at the g_return_val_if_fail guard
(the failure site the spec names AlreadyBoundError: the C returns FALSE
without touching the GError) and is a no-op: the returned snapshot state
— binding, object path, id, model, kind, created and profile list — is
exactly the state before the call. -/
theorem bind_already_bound_noop (t : Transport) (device : CdDevice)
    (object_path : String) (h : device.proxy = true) :
    cd_device_set_object_path_sync t device object_path =
      some (device, .error .alreadyBound) := by
  simp [cd_device_set_object_path_sync, h]

/-- Witness for C2: the already-bound snapshot dBound rejects a rebind and is
returned unchanged. -/
theorem bind_already_bound_noop_witness :
    cd_device_set_object_path_sync tFull dBound "/other" =
      some (dBound, .error .alreadyBound) :=
  bind_already_bound_noop tFull dBound "/other" rfl

/-- C3: an unbound snapshot bound through a transport whose initial cached
property set supplies DeviceId, Kind, Model, Created and a fully
resolvable Profiles path list ends with every declared field equal to the
supplied values — id, model, created as given, kind parsed from the
supplied string, one resolved profile per supplied path (so the profile
count equals the supplied count) — and the object path equal to the
bound path. -/
theorem bind_success_hydrates (t : Transport) (device : CdDevice)
    (object_path devid ks m : String) (c : Nat) (ps : List String)
    (hUnbound : device.proxy = false)
    (hConn : t.connectOk = true)
    (hId : t.cachedProp "DeviceId" = some (.str devid))
    (hKind : t.cachedProp "Kind" = some (.str ks))
    (hModel : t.cachedProp "Model" = some (.str m))
    (hCreated : t.cachedProp "Created" = some (.u64 c))
    (hProfiles : t.cachedProp "Profiles" = some (.objPaths ps))
    (hResolve : ∀ p ∈ ps, t.profileResolve p = true) :
    cd_device_set_object_path_sync t device object_path =
      some ({ proxy := true
            , object_path := some object_path
            , id := some devid
            , model := some m
            , created := c
            , profiles := ps.map resolvedProfile
            , kind := cd_device_kind_from_string ks
            , connectedSignals := true }, .ok ()) := by
  simp [cd_device_set_object_path_sync, cd_device_read_cached_scalars,
    hUnbound, hConn, hId, hKind, hModel, hCreated, hProfiles,
    cd_device_set_profiles_array_from_variant, GVariant.getObjPaths,
    resolveProfilesLoop_ok t ps hResolve, GVariant.getString,
    GVariant.getUInt64]

/-- Witness for C3: binding a fresh snapshot through tFull fills every field
from the initial property set of the mock transport. -/
theorem bind_success_hydrates_witness :
    cd_device_set_object_path_sync tFull cd_device_new "/dev0" =
      some ({ proxy := true, object_path := some "/dev0", id := some "dev0",
              model := some "Dream Color", created := 1295983997,
              profiles := ["/p1", "/p2"].map resolvedProfile,
              kind := cd_device_kind_from_string "display",
              connectedSignals := true }, .ok ()) :=
  bind_success_hydrates tFull cd_device_new "/dev0" "dev0" "display"
    "Dream Color" 1295983997 ["/p1", "/p2"] rfl rfl rfl rfl rfl rfl rfl
    (by decide)

/-- C9: during a bind of a fresh snapshot, each of the four scalar
attributes the transport reports as absent leaves the corresponding field
at its initialized default — NULL id, Unknown kind, NULL model,
0 created — without failing the bind (first conjunct); the Profiles
attribute alone has no absent-value guard: when it is absent the C hands
NULL straight to g_variant_iter_init, modelled as the crash outcome
(second conjunct). -/
theorem bind_absent_defaults :
    (∀ (t : Transport) (object_path : String) (ps : List String),
      t.connectOk = true →
      t.cachedProp "Profiles" = some (.objPaths ps) →
      (∀ p ∈ ps, t.profileResolve p = true) →
      ∃ d2, cd_device_set_object_path_sync t cd_device_new object_path =
              some (d2, .ok ()) ∧
        (t.cachedProp "DeviceId" = none → d2.id = none) ∧
        (t.cachedProp "Kind" = none → d2.kind = .unknown) ∧
        (t.cachedProp "Model" = none → d2.model = none) ∧
        (t.cachedProp "Created" = none → d2.created = 0)) ∧
    (∀ (t : Transport) (object_path : String),
      t.connectOk = true →
      t.cachedProp "Profiles" = none →
      cd_device_set_object_path_sync t cd_device_new object_path = none) := by
  constructor
  · intro t object_path ps hConn hProf hRes
    refine ⟨{ proxy := true
            , object_path := some object_path
            , id := (t.cachedProp "DeviceId").map GVariant.getString
            , model := (t.cachedProp "Model").map GVariant.getString
            , created := ((t.cachedProp "Created").map GVariant.getUInt64).getD 0
            , profiles := ps.map resolvedProfile
            , kind := ((t.cachedProp "Kind").map
                (fun v => cd_device_kind_from_string v.getString)).getD .unknown
            , connectedSignals := true }, ?_, ?_, ?_, ?_, ?_⟩
    · rcases hId : t.cachedProp "DeviceId" with _ | idv <;>
      rcases hK : t.cachedProp "Kind" with _ | kv <;>
      rcases hM : t.cachedProp "Model" with _ | mv <;>
      rcases hC : t.cachedProp "Created" with _ | cv <;>
      simp [cd_device_set_object_path_sync, cd_device_read_cached_scalars,
        hConn, hProf, hId, hK, hM, hC,
        cd_device_set_profiles_array_from_variant, GVariant.getObjPaths,
        resolveProfilesLoop_ok t ps hRes, cd_device_new]
    · intro h
      simp [h]
    · intro h
      simp [h]
    · intro h
      simp [h]
    · intro h
      simp [h]
  · intro t object_path hConn hProf
    simp [cd_device_set_object_path_sync, hConn, hProf, cd_device_new]

/-- Witness for C9: through tAbsent (only Profiles present) the bind
succeeds with every scalar at its default; through tNothing (Profiles
absent) the bind reaches the unguarded NULL dereference. -/
theorem bind_absent_defaults_witness :
    (∃ d2, cd_device_set_object_path_sync tAbsent cd_device_new "/dev2" =
            some (d2, .ok ()) ∧
      (tAbsent.cachedProp "DeviceId" = none → d2.id = none) ∧
      (tAbsent.cachedProp "Kind" = none → d2.kind = .unknown) ∧
      (tAbsent.cachedProp "Model" = none → d2.model = none) ∧
      (tAbsent.cachedProp "Created" = none → d2.created = 0)) ∧
    cd_device_set_object_path_sync tNothing cd_device_new "/dev3" = none :=
  ⟨bind_absent_defaults.1 tAbsent "/dev2" [] rfl rfl (by simp),
   bind_absent_defaults.2 tNothing "/dev3" rfl rfl⟩

/-- C10: when a bind of a fresh snapshot fails after the connection is
established (initial profile-list resolution fails), the two listener
registrations are never made, so a later properties-changed notification
leaves the snapshot untouched and a later D-Bus signal produces no
observer emission. -/
theorem bind_profile_failure_never_delivers (t : Transport)
    (device : CdDevice) (object_path : String) (d2 : CdDevice)
    (hFresh : device.connectedSignals = false)
    (h : cd_device_set_object_path_sync t device object_path =
          some (d2, .error .profileResolveFailed)) :
    d2.connectedSignals = false ∧
    (∀ (t2 : Transport) (changes : List (String × GVariant)),
        deliverPropertiesChanged t2 d2 changes = d2) ∧
    (∀ signal_name, deliverDbusSignal d2 signal_name = []) := by
  have h2 := bind_error_keeps_listeners_off t device object_path d2 _ h
  rw [hFresh] at h2
  refine ⟨h2, ?_, ?_⟩
  · intro t2 changes
    simp [deliverPropertiesChanged, h2]
  · intro signal_name
    simp [deliverDbusSignal, h2]

/-- Witness for C10: the failed bind of a fresh snapshot through tBadProfile
leaves dFailedBind, on which a Model notification is inert and a Changed
signal emits nothing. -/
theorem bind_profile_failure_never_delivers_witness :
    dFailedBind.connectedSignals = false ∧
    deliverPropertiesChanged tFull dFailedBind [("Model", .str "Z")] =
      dFailedBind ∧
    deliverDbusSignal dFailedBind "Changed" = [] :=
  ⟨(bind_profile_failure_never_delivers tBadProfile cd_device_new "/dev1"
      dFailedBind rfl rfl).1,
   (bind_profile_failure_never_delivers tBadProfile cd_device_new "/dev1"
      dFailedBind rfl rfl).2.1 tFull [("Model", .str "Z")],
   (bind_profile_failure_never_delivers tBadProfile cd_device_new "/dev1"
      dFailedBind rfl rfl).2.2 "Changed"⟩

/-- C1 counterexample: the claim that a Profiles notification with a failing
path leaves the profile list as it was before is false on the code.  On
the bound snapshot dBound (profile list [/a]) a notification with
Profiles [/p1, /p2], where /p2 fails to resolve, leaves the list holding
exactly the partially rebuilt array [/p1] — the function truncated the
old array to size 0 before resolving — which differs from the old list. -/
theorem profiles_partial_failure_counterexample :
    (cd_device_dbus_properties_changed tBadProfile dBound
        [("Profiles", .objPaths ["/p1", "/p2"])]).profiles =
      [resolvedProfile "/p1"] ∧
    dBound.profiles = [resolvedProfile "/a"] ∧
    (cd_device_dbus_properties_changed tBadProfile dBound
        [("Profiles", .objPaths ["/p1", "/p2"])]).profiles ≠
      dBound.profiles := by
  refine ⟨rfl, rfl, ?_⟩
  decide

/-- C1 as amended: for every snapshot and every properties-changed
notification carrying a Profiles path list in which the path after the
first resolvable segment fails to resolve, the profile list after the
handler runs equals the freshly resolved initial segment — the old list
is discarded first (g_ptr_array_set_size to 0) and the rebuild stops at
the failing path, so the replacement is partial, not all-or-fail; no
error is surfaced to the caller (the handler ignores the FALSE return
and passes a NULL GError, as the type of the handler here shows). -/
theorem profiles_changed_failure_keeps_resolved_seg (t : Transport)
    (device : CdDevice) (good : List String) (bad : String)
    (rest : List String)
    (hg : ∀ p ∈ good, t.profileResolve p = true)
    (hb : t.profileResolve bad = false) :
    (cd_device_dbus_properties_changed t device
        [("Profiles", .objPaths (good ++ bad :: rest))]).profiles =
      good.map resolvedProfile := by
  simp [cd_device_dbus_properties_changed, cd_device_apply_changed_property,
    cd_device_set_profiles_array_from_variant, GVariant.getObjPaths,
    resolveProfilesLoop_fail t good bad rest hg hb]

/-- Witness for amended C1: on dBound, a Profiles notification of
[/p1, /p2] with /p2 unresolvable leaves exactly the resolved segment
[/p1]. -/
theorem profiles_changed_failure_keeps_resolved_seg_witness :
    (cd_device_dbus_properties_changed tBadProfile dBound
        [("Profiles", .objPaths (["/p1"] ++ "/p2" :: []))]).profiles =
      ["/p1"].map resolvedProfile :=
  profiles_changed_failure_keeps_resolved_seg tBadProfile dBound ["/p1"]
    "/p2" [] (by decide) rfl

/-- C7: a properties-changed notification whose change set contains only the
Model attribute with value X sets the model field to X and leaves kind, id, created, the
profile list, the object path, the proxy binding and the listener
registrations unchanged, on every snapshot. -/
theorem model_changed_updates_only_model (t : Transport) (device : CdDevice)
    (x : String) :
    (cd_device_dbus_properties_changed t device [("Model", .str x)]).model =
      some x ∧
    (cd_device_dbus_properties_changed t device [("Model", .str x)]).kind =
      device.kind ∧
    (cd_device_dbus_properties_changed t device [("Model", .str x)]).id =
      device.id ∧
    (cd_device_dbus_properties_changed t device [("Model", .str x)]).created =
      device.created ∧
    (cd_device_dbus_properties_changed t device [("Model", .str x)]).profiles =
      device.profiles ∧
    (cd_device_dbus_properties_changed t device
        [("Model", .str x)]).object_path = device.object_path ∧
    (cd_device_dbus_properties_changed t device [("Model", .str x)]).proxy =
      device.proxy ∧
    (cd_device_dbus_properties_changed t device
        [("Model", .str x)]).connectedSignals = device.connectedSignals := by
  simp [cd_device_dbus_properties_changed, cd_device_apply_changed_property,
    GVariant.getString]

/-- C8: a sequence of incoming signals that are all "Changed" produces
exactly one payload-free observer emission per incoming signal, in
arrival order — the emission list is the one-to-one image of the signal
list, so two consecutive deliveries are never coalesced into one. -/
theorem changed_signals_one_to_one (signal_names : List String)
    (h : ∀ s ∈ signal_names, s = "Changed") :
    processDbusSignals signal_names =
      signal_names.map (fun _ => CdSignalEmission.changed) ∧
    (processDbusSignals signal_names).length = signal_names.length := by
  have key : processDbusSignals signal_names =
      signal_names.map (fun _ => CdSignalEmission.changed) := by
    induction signal_names with
    | nil => rfl
    | cons s rest ih =>
      have hs : s = "Changed" := h s (by simp)
      have hrest : ∀ q ∈ rest, q = "Changed" := by
        intro q hq
        exact h q (by simp [hq])
      have ih2 := ih hrest
      simp only [processDbusSignals] at ih2 ⊢
      simp [hs, cd_device_dbus_signal_cb, ih2]
  exact ⟨key, by simp [key]⟩

/-- Witness for C8: two consecutive "Changed" deliveries yield two
emissions. -/
theorem changed_signals_one_to_one_witness :
    processDbusSignals ["Changed", "Changed"] =
      ["Changed", "Changed"].map (fun _ => CdSignalEmission.changed) ∧
    (processDbusSignals ["Changed", "Changed"]).length =
      (["Changed", "Changed"] : List String).length :=
  changed_signals_one_to_one ["Changed", "Changed"] (by decide)

/-- C4: each of cd_device_set_model_sync, cd_device_set_kind_sync,
cd_device_add_profile_sync and cd_device_make_profile_default_sync
returns the local snapshot with every field unchanged — whatever the
transport answers (success or failure) and whether or not the snapshot is
bound — since none of them assigns to the snapshot: the snapshot is
updated only by later change notifications. -/
theorem mutators_leave_snapshot_unchanged (t : Transport) (device : CdDevice)
    (value : String) (kind : CdDeviceKind) (profile : CdProfile) :
    (cd_device_set_model_sync t device value).1 = device ∧
    (cd_device_set_kind_sync t device kind).1 = device ∧
    (cd_device_add_profile_sync t device profile).1 = device ∧
    (cd_device_make_profile_default_sync t device profile).1 = device := by
  refine ⟨?_, ?_, ?_, ?_⟩ <;>
    simp only [cd_device_set_model_sync, cd_device_set_kind_sync,
      cd_device_add_profile_sync, cd_device_make_profile_default_sync,
      cd_device_set_property_sync] <;>
    (repeat' split) <;> rfl

/-- C5 counterexample: the claim that an empty qualifier fails without a
remote call is false on the code — the guard checks only qualifier !=
NULL, so on the bound snapshot dBound the empty-string qualifier passes
both guards, the GetProfileForQualifier remote call is issued (the call
trace is non-empty) and the call in fact succeeds. -/
theorem empty_qualifier_not_rejected :
    (cd_device_get_profile_for_qualifier_sync tQual dBound (some "")).2 =
      [("GetProfileForQualifier", [.str ""])] ∧
    (cd_device_get_profile_for_qualifier_sync tQual dBound (some "")).1 =
      .ok (resolvedProfile "/profile/1") :=
  ⟨rfl, rfl⟩

/-- C5 as amended: cd_device_get_profile_for_qualifier_sync requires bound
state and a non-NULL qualifier: on every unbound snapshot it fails
without issuing a remote call (empty trace, never a success), and every
NULL-qualifier call fails without issuing a remote call; an empty but
non-NULL qualifier is not rejected by the guards. -/
theorem qualifier_guards (t : Transport) (device : CdDevice)
    (qualifier : Option String) :
    (device.proxy = false →
      (cd_device_get_profile_for_qualifier_sync t device qualifier).2 = [] ∧
      ∀ profile,
        (cd_device_get_profile_for_qualifier_sync t device qualifier).1 ≠
          .ok profile) ∧
    (qualifier = none →
      (cd_device_get_profile_for_qualifier_sync t device qualifier).2 = [] ∧
      (cd_device_get_profile_for_qualifier_sync t device qualifier).1 =
        .error .nullQualifier) := by
  constructor
  · intro hp
    rcases qualifier with _ | q
    · simp [cd_device_get_profile_for_qualifier_sync]
    · simp [cd_device_get_profile_for_qualifier_sync, hp]
  · intro hq
    subst hq
    simp [cd_device_get_profile_for_qualifier_sync]

/-- Witness for amended C5: an unbound snapshot with a non-empty qualifier
issues no call and never succeeds; a NULL qualifier on a bound snapshot
issues no call and fails at the qualifier guard. -/
theorem qualifier_guards_witness :
    (cd_device_get_profile_for_qualifier_sync tQual cd_device_new
        (some "x")).2 = [] ∧
    (cd_device_get_profile_for_qualifier_sync tQual cd_device_new
        (some "x")).1 ≠ .ok (resolvedProfile "/profile/1") ∧
    (cd_device_get_profile_for_qualifier_sync tQual dBound none).2 = [] ∧
    (cd_device_get_profile_for_qualifier_sync tQual dBound none).1 =
      .error .nullQualifier :=
  ⟨((qualifier_guards tQual cd_device_new (some "x")).1 rfl).1,
   ((qualifier_guards tQual cd_device_new (some "x")).1 rfl).2
     (resolvedProfile "/profile/1"),
   ((qualifier_guards tQual dBound none).2 rfl).1,
   ((qualifier_guards tQual dBound none).2 rfl).2⟩

/-- C6: on a bound snapshot, when the remote GetProfileForQualifier call
answers with an object path that resolves, the function returns a fresh
profile reference whose object path equals the returned path — built
from cd_profile_new, independent of the cached profile list (the
snapshot and its profile list are universally quantified and never
consulted). -/
theorem get_profile_for_qualifier_resolves (t : Transport)
    (device : CdDevice) (q p : String)
    (hBound : device.proxy = true)
    (hCall : t.callSync "GetProfileForQualifier" [.str q] =
      some (.objPath p))
    (hRes : t.profileResolve p = true) :
    (cd_device_get_profile_for_qualifier_sync t device (some q)).1 =
      .ok (resolvedProfile p) := by
  simp [cd_device_get_profile_for_qualifier_sync, hBound, hCall,
    cd_profile_set_object_path_sync, hRes, GVariant.getObjPath,
    cd_profile_new, resolvedProfile]

/-- Witness for C6: qualifier *.CMYK.* against tQual (which answers
/profile/1) yields a profile reference with object path /profile/1. -/
theorem get_profile_for_qualifier_resolves_witness :
    (cd_device_get_profile_for_qualifier_sync tQual dBound
        (some "*.CMYK.*")).1 = .ok (resolvedProfile "/profile/1") :=
  get_profile_for_qualifier_resolves tQual dBound "*.CMYK.*" "/profile/1"
    rfl rfl rfl
